import Mathlib

/-!
Shallow embedding of the TestFlight beta-tester provisioning engine
(`app_store_api.py` and `status_utils.py` of the LeavnOfficial repository).

The network is modelled as oracles: the per-attempt HTTP layer as a function
from attempt number to the raw HTTP outcome, and the per-endpoint layer as a
record of functions giving the outcome of `_make_request` for each endpoint
the workflow calls.  Wall-clock time is an explicit rational parameter.
-/

deriving instance DecidableEq for Except

namespace AppStore

/-- Embeds `AppStoreConnectAPIError` (app_store_api.py, lines 49-56).  The optional
`response` payload is carried by the source but never inspected by any caller,
so it is omitted here. -/
structure APIError where
  message : String
  status_code : Option Nat := none
deriving DecidableEq, Repr

/-- Embeds `RetryConfig` (app_store_api.py, lines 58-64).  Delays are seconds,
modelled as rationals. -/
structure RetryConfig where
  max_retries : Nat := 3
  base_delay : ℚ := 1
  max_delay : ℚ := 60
deriving DecidableEq, Repr

/-- The configuration the client always uses: `self.retry_config = RetryConfig()`
(app_store_api.py, line 88); nothing in the repository overrides it. -/
def defaultRetryConfig : RetryConfig := {}

/-- Generic exponential backoff, `min(base_delay * (2 ** attempt), max_delay)`
(app_store_api.py, lines 307-308 and 327-328). -/
def genericDelay (cfg : RetryConfig) (attempt : Nat) : ℚ :=
  min (cfg.base_delay * 2 ^ attempt) cfg.max_delay

/-- Rate-limit backoff, `min(base_delay * (2 ** attempt) * 2, max_delay)`
(app_store_api.py, lines 294-295). -/
def rateLimitDelay (cfg : RetryConfig) (attempt : Nat) : ℚ :=
  min (cfg.base_delay * 2 ^ attempt * 2) cfg.max_delay

/-- Outcome of one HTTP attempt inside `_make_request`: either a
`requests.RequestException` or a response with a status code and (already
decoded) body.  `errorDetail` models the error-detail string the source
extracts from the body (or falls back to `response.text`) when building the
401/403 message (app_store_api.py, lines 272-278). -/
inductive HttpAttempt (β : Type) where
  | netError (msg : String)
  | reply (status : Nat) (body : β) (errorDetail : String)

/-- The retry loop of `_make_request` (app_store_api.py, lines 243-333).
`remaining` is the number of retries still allowed, i.e. the source's
`max_retries - attempt`; the guard `attempt < self.retry_config.max_retries`
is exactly `remaining > 0`.  Returns the result together with the list of
delays slept (`time.sleep(delay)`), in order.
Branches, per attempt:
200/201 return the body; 401/403 and 404 raise without retrying; 429 retries
with `rateLimitDelay`; every other status (and network errors) retries with
`genericDelay`; on the last attempt the retryable branches raise instead. -/
def makeRequestAux (cfg : RetryConfig) (endpoint : String) {β : Type}
    (oracle : Nat → HttpAttempt β) :
    (remaining attempt : Nat) → Except APIError β × List ℚ
  | 0, attempt =>
    match oracle attempt with
    | .netError msg => (.error ⟨s!"Network error: {msg}", none⟩, [])
    | .reply status body errorDetail =>
      if status = 200 ∨ status = 201 then (.ok body, [])
      else if status = 401 ∨ status = 403 then
        (.error ⟨s!"Authentication failed: {errorDetail}", some status⟩, [])
      else if status = 404 then
        (.error ⟨s!"Resource not found: {endpoint}", some status⟩, [])
      else if status = 429 then
        (.error ⟨"Rate limit exceeded", some status⟩, [])
      else
        (.error ⟨s!"Request failed with status {status}", some status⟩, [])
  | remaining + 1, attempt =>
    match oracle attempt with
    | .netError _ =>
      let rest := makeRequestAux cfg endpoint oracle remaining (attempt + 1)
      (rest.1, genericDelay cfg attempt :: rest.2)
    | .reply status body errorDetail =>
      if status = 200 ∨ status = 201 then (.ok body, [])
      else if status = 401 ∨ status = 403 then
        (.error ⟨s!"Authentication failed: {errorDetail}", some status⟩, [])
      else if status = 404 then
        (.error ⟨s!"Resource not found: {endpoint}", some status⟩, [])
      else if status = 429 then
        let rest := makeRequestAux cfg endpoint oracle remaining (attempt + 1)
        (rest.1, rateLimitDelay cfg attempt :: rest.2)
      else
        let rest := makeRequestAux cfg endpoint oracle remaining (attempt + 1)
        (rest.1, genericDelay cfg attempt :: rest.2)

/-- Embeds `_make_request` entry point: `for attempt in range(max_retries + 1)`
starting at attempt 0 with `max_retries` retries remaining. -/
def makeRequest (cfg : RetryConfig) (endpoint : String) {β : Type}
    (oracle : Nat → HttpAttempt β) : Except APIError β × List ℚ :=
  makeRequestAux cfg endpoint oracle cfg.max_retries 0

example :
    makeRequest defaultRetryConfig "/x" (fun _ => .reply 200 (5 : Nat) "") =
      (.ok 5, []) := rfl

example :
    (makeRequest defaultRetryConfig "/x" (fun _ => .reply 204 (5 : Nat) "")).1 =
      .error ⟨"Request failed with status 204", some 204⟩ := rfl

example :
    (makeRequest defaultRetryConfig "/x" (fun _ => .reply 204 (5 : Nat) "")).2.length = 3 := rfl

example :
    (makeRequest defaultRetryConfig "/x" (fun _ => .reply 429 (5 : Nat) "")).1 =
      .error ⟨"Rate limit exceeded", some 429⟩ := rfl

example :
    makeRequest defaultRetryConfig "/x" (fun _ => .reply 429 (5 : Nat) "") =
      (.error ⟨"Rate limit exceeded", some 429⟩,
        [rateLimitDelay defaultRetryConfig 0, rateLimitDelay defaultRetryConfig 1,
         rateLimitDelay defaultRetryConfig 2]) := rfl

example :
    (makeRequest defaultRetryConfig "/x" (fun _ => .reply 409 (5 : Nat) "")).1 =
      .error ⟨"Request failed with status 409", some 409⟩ := rfl

/-- A `data` element of `GET /apps` (fields requested: bundleId, name, sku). -/
structure AppResource where
  id : String
  bundleId : String
  name : String
deriving DecidableEq, Repr

/-- A `data` element of `GET /builds` (fields requested: version, buildNumber,
processingState, uploadedDate). -/
structure BuildResource where
  id : String
  version : String
  buildNumber : String
  processingState : String
  uploadedDate : String
deriving DecidableEq, Repr

/-- A `data` element of `GET /betaTesters` (fields requested: email,
firstName, lastName). -/
structure TesterResource where
  id : String
  email : String
  firstName : String
  lastName : String
deriving DecidableEq, Repr

/-- Endpoint-level network oracle: one field per distinct `_make_request`
call site, giving the outcome (`return` value or raised
`AppStoreConnectAPIError`) of that request.  `getApps`, `getBuilds`,
`getBetaTesters`, `getBuildById` and `getTesterApps` yield the `data`
portion of the decoded body; the relationship POSTs yield no data the
callers use. -/
structure ApiEnv where
  getApps : String → Except APIError (List AppResource)
  getBuilds : String → Except APIError (List BuildResource)
  getBetaTesters : String → Except APIError (List TesterResource)
  postBetaTester : String → String → String → Except APIError TesterResource
  postTesterAppRel : String → String → Except APIError Unit
  postBuildTesterRel : String → String → Except APIError Unit
  getBuildById : String → Except APIError BuildResource
  getTesterApps : String → Except APIError (List AppResource)

/-- Embeds `get_app_id` (app_store_api.py, lines 335-373): raise if the filtered
`data` list is empty, otherwise return `data[0]['id']`. -/
def get_app_id (env : ApiEnv) (bundle_id : String) : Except APIError String :=
  match env.getApps bundle_id with
  | .error e => .error e
  | .ok [] => .error ⟨s!"No app found with bundle ID: {bundle_id}", none⟩
  | .ok (a :: _) => .ok a.id

/-- Embeds `build_info` dictionary built by `get_latest_build`
(app_store_api.py, lines 410-417). -/
structure BuildInfo where
  id : String
  version : String
  build_number : String
  processing_state : String
  uploaded_date : String
deriving DecidableEq, Repr

/-- Embeds `get_latest_build` (app_store_api.py, lines 375-427): raise if no builds,
otherwise repackage `data[0]` (the most recently uploaded build, since the
request asks for sort `-uploadedDate`, limit 1). -/
def get_latest_build (env : ApiEnv) (app_id : String) : Except APIError BuildInfo :=
  match env.getBuilds app_id with
  | .error e => .error e
  | .ok [] => .error ⟨s!"No builds found for app ID: {app_id}", none⟩
  | .ok (b :: _) =>
    .ok ⟨b.id, b.version, b.buildNumber, b.processingState, b.uploadedDate⟩

/-- Embeds `_find_existing_tester` (app_store_api.py, lines 504-521): returns
`data[0]` when the lookup succeeds with a non-empty list, `None` when the
list is empty, and — the `except AppStoreConnectAPIError` branch — `None`
when the lookup raises. -/
def find_existing_tester (env : ApiEnv) (email : String) : Option TesterResource :=
  match env.getBetaTesters email with
  | .error _ => none
  | .ok [] => none
  | .ok (t :: _) => some t

/-- Embeds `_add_tester_to_app` (app_store_api.py, lines 523-542): POST the
relationship; a raised error with status code 409 is swallowed
("Tester already added to app"), any other error is re-raised. -/
def add_tester_to_app (env : ApiEnv) (tester_id app_id : String) : Except APIError Unit :=
  match env.postTesterAppRel tester_id app_id with
  | .ok _ => .ok ()
  | .error e => if e.status_code = some 409 then .ok () else .error e

/-- Embeds `_add_tester_to_build` (app_store_api.py, lines 544-565): same 409
absorption for the build relationship. -/
def add_tester_to_build (env : ApiEnv) (tester_id build_id : String) : Except APIError Unit :=
  match env.postBuildTesterRel tester_id build_id with
  | .ok _ => .ok ()
  | .error e => if e.status_code = some 409 then .ok () else .error e

/-- The build-association step of `invite_tester` (app_store_api.py,
lines 481-485): if the latest build's processing state equals `PROCESSING`
the tester↔build association is skipped (only a warning is logged),
otherwise `_add_tester_to_build` is called — whatever the state. -/
def build_association_step (env : ApiEnv) (tester_id : String)
    (latest_build : BuildInfo) : Except APIError Unit :=
  if latest_build.processing_state = "PROCESSING" then .ok ()
  else add_tester_to_build env tester_id latest_build.id

/-- Embeds `result` dictionary returned by `invite_tester`
(app_store_api.py, lines 487-494). -/
structure InviteResult where
  tester_id : String
  email : String
  status : String
  app_id : String
  build_id : String
  build_version : String
deriving DecidableEq, Repr

/-- Embeds `invite_tester` (app_store_api.py, lines 429-502): resolve the app if no
id was given; find or create the tester; add the tester to the app; fetch
the latest build; associate the tester to it unless the build is still
`PROCESSING`; return a result whose `status` is always `'invited'`. -/
def invite_tester (env : ApiEnv) (email first_name last_name : String)
    (app_id : Option String) (bundle_id : String) : Except APIError InviteResult :=
  match (match app_id with
         | some a => Except.ok a
         | none => get_app_id env bundle_id) with
  | .error e => .error e
  | .ok aid =>
    match (match find_existing_tester env email with
           | some t => Except.ok t.id
           | none =>
             match env.postBetaTester email first_name last_name with
             | .error e => Except.error e
             | .ok t => Except.ok t.id) with
    | .error e => .error e
    | .ok tid =>
      match add_tester_to_app env tid aid with
      | .error e => .error e
      | .ok _ =>
        match get_latest_build env aid with
        | .error e => .error e
        | .ok latest_build =>
          match build_association_step env tid latest_build with
          | .error e => .error e
          | .ok _ =>
            .ok ⟨tid, email, "invited", aid, latest_build.id, latest_build.version⟩

/-- One entry of the `testers` argument of `invite_multiple_testers`. -/
structure TesterEntry where
  email : String
  first_name : String
  last_name : String
deriving DecidableEq, Repr

/-- The `results` dictionary of `invite_multiple_testers`
(app_store_api.py, lines 583-588); each bucket lists `(email, detail)`
pairs in the order they were appended. -/
structure BatchResults where
  successful : List (String × String)
  failed : List (String × String)
  already_invited : List (String × String)
  total : Nat
deriving DecidableEq, Repr

/-- The `"already exists" in str(e).lower()` test of
`invite_multiple_testers` (app_store_api.py, line 609). -/
def mentionsAlreadyExists (msg : String) : Bool :=
  decide ("already exists".toList <:+: msg.toLower.toList)

/-- The per-tester loop of `invite_multiple_testers`
(app_store_api.py, lines 592-622): each entry lands in exactly one bucket —
`successful` on success, `already_invited` when the raised error's text
contains "already exists", `failed` otherwise. -/
def inviteTestersLoop (env : ApiEnv) (app_id : String) (bundle_id : String) :
    List TesterEntry → List (String × String) × List (String × String) × List (String × String)
  | [] => ([], [], [])
  | t :: rest =>
    let acc := inviteTestersLoop env app_id bundle_id rest
    match invite_tester env t.email t.first_name t.last_name (some app_id) bundle_id with
    | .ok r => ((t.email, r.tester_id) :: acc.1, acc.2.1, acc.2.2)
    | .error e =>
      if mentionsAlreadyExists e.message then
        (acc.1, acc.2.1, (t.email, e.message) :: acc.2.2)
      else
        (acc.1, (t.email, e.message) :: acc.2.1, acc.2.2)

/-- Embeds `invite_multiple_testers` (app_store_api.py, lines 567-627): resolve the
app id if absent (a failure there propagates), then run the loop; `total`
is `len(testers)`, fixed before the loop. -/
def invite_multiple_testers (env : ApiEnv) (testers : List TesterEntry)
    (app_id : Option String) (bundle_id : String) : Except APIError BatchResults :=
  match (match app_id with
         | some a => Except.ok a
         | none => get_app_id env bundle_id) with
  | .error e => .error e
  | .ok aid =>
    let r := inviteTestersLoop env aid bundle_id testers
    .ok ⟨r.1, r.2.1, r.2.2, testers.length⟩

/-- The readiness test of the standalone `check_build_status`
(app_store_api.py, lines 693-724): resolve app and latest build, then report
ready exactly when the processing state equals `READY_FOR_TESTING`; every
failure path prints and returns `False`. -/
def check_build_status (env : ApiEnv) (bundle_id : String) : Bool :=
  match get_app_id env bundle_id with
  | .error _ => false
  | .ok app_id =>
    match get_latest_build env app_id with
    | .error _ => false
    | .ok latest_build => latest_build.processing_state = "READY_FOR_TESTING"

/-- The credentials a loaded client carries (app_store_api.py, lines 107-109);
the private-key material itself only feeds the opaque signing step. -/
structure Credentials where
  api_key_id : String
  issuer_id : String
deriving DecidableEq, Repr

/-- The JWT the client signs (app_store_api.py, lines 189-208): payload
`{iss, exp, aud}` plus the `kid` header.  `exp` is kept as the expiry
timestamp in seconds (the source serializes `int(expiry.timestamp())` into
the payload; the surrounding cache logic compares the un-truncated
`datetime`). -/
structure JWT where
  iss : String
  exp : ℚ
  aud : String
  kid : String
deriving DecidableEq, Repr

/-- The client's mutable token cache: `self.current_token` and
`self.token_expires_at` (app_store_api.py, lines 86-87, 211-212). -/
structure TokenState where
  current_token : Option JWT
  token_expires_at : Option ℚ
deriving DecidableEq, Repr

/-- Embeds `TOKEN_EXPIRY_MINUTES = 20` (app_store_api.py, line 72). -/
def TOKEN_EXPIRY_MINUTES : ℚ := 20

/-- The fresh-token branch of `generate_jwt_token` (app_store_api.py,
lines 186-217): expiry is `now + 20 minutes`; the signed token and its
expiry overwrite the cache. -/
def freshToken (cred : Credentials) (now : ℚ) : JWT × TokenState :=
  let expiry := now + TOKEN_EXPIRY_MINUTES * 60
  let token : JWT := ⟨cred.issuer_id, expiry, "appstoreconnect-v1", cred.api_key_id⟩
  (token, ⟨some token, some expiry⟩)

/-- Embeds `generate_jwt_token` (app_store_api.py, lines 168-222): if a cached token
exists and `utcnow() < token_expires_at - timedelta(minutes=1)`, return it
unchanged; otherwise sign a fresh token and cache it.  Time is the explicit
`now` parameter, in seconds. -/
def generate_jwt_token (cred : Credentials) (now : ℚ) (st : TokenState) :
    JWT × TokenState :=
  match st.current_token, st.token_expires_at with
  | some token, some expires_at =>
    if now < expires_at - 60 then (token, st) else freshToken cred now
  | some _, none => freshToken cred now
  | none, _ => freshToken cred now

/-- Cache coherence: whenever both cache fields are set, the cached token's
expiry field is the cached expiry.  Lines 210-212 of the source establish it
(both fields are written together from the same `expiry`). -/
def TokenState.coherent (st : TokenState) : Prop :=
  ∀ t e, st.current_token = some t → st.token_expires_at = some e → t.exp = e

end AppStore

namespace StatusUtils

open AppStore

/-- The `BuildStatus` dataclass (status_utils.py, lines 73-84), restricted to
the fields the embedding models (the wall-clock fields `last_checked` and
`processing_time` are dropped). -/
structure BuildStatus where
  build_id : String
  version : String
  build_number : String
  processing_state : String
  uploaded_date : String
  is_ready : Bool
deriving DecidableEq, Repr

/-- Embeds `StatusChecker._get_build_by_id` (status_utils.py, lines 452-464): any
failure is wrapped into a fresh error message. -/
def get_build_by_id (env : ApiEnv) (build_id : String) : Except APIError BuildResource :=
  match env.getBuildById build_id with
  | .ok b => .ok b
  | .error e =>
    let m := e.message
    .error ⟨s!"Failed to get build {build_id}: {m}", none⟩

/-- The readiness rule of `StatusChecker.check_build_status`
(status_utils.py, line 280):
`processing_state in ['PROCESSING_COMPLETE', 'READY_FOR_BETA_TESTING']`. -/
def is_ready_rule (processing_state : String) : Bool :=
  decide (processing_state ∈ (["PROCESSING_COMPLETE", "READY_FOR_BETA_TESTING"] : List String))

/-- Embeds `StatusChecker.check_build_status` (status_utils.py, lines 245-320):
resolve the app when needed, fetch the requested or latest build, and package
a `BuildStatus` whose `is_ready` follows `is_ready_rule`. -/
def check_build_status (env : ApiEnv) (app_id : Option String)
    (bundle_id : String) (build_id : Option String) : Except APIError BuildStatus :=
  match (match app_id with
         | some a => Except.ok a
         | none => get_app_id env bundle_id) with
  | .error e => .error e
  | .ok aid =>
    match (match build_id with
           | some bid =>
             match get_build_by_id env bid with
             | .error e => Except.error e
             | .ok b => Except.ok (⟨b.id, b.version, b.buildNumber, b.processingState,
                 b.uploadedDate⟩ : BuildInfo)
           | none => get_latest_build env aid) with
    | .error e => .error e
    | .ok b =>
      .ok ⟨b.id, b.version, b.build_number, b.processing_state, b.uploaded_date,
           is_ready_rule b.processing_state⟩

/-- The `InvitationStatus` dataclass (status_utils.py, lines 86-96),
restricted to the fields the embedding models. -/
structure InvitationStatus where
  email : String
  tester_id : Option String
  status : String
  app_id : String
deriving DecidableEq, Repr

/-- Embeds `StatusChecker._find_tester_by_email` (status_utils.py, lines 466-481):
`data[0]` on a non-empty result, `None` on an empty result or any raised
error. -/
def find_tester_by_email (env : ApiEnv) (email : String) : Option TesterResource :=
  match env.getBetaTesters email with
  | .error _ => none
  | .ok [] => none
  | .ok (t :: _) => some t

/-- Embeds `StatusChecker._check_tester_app_association` (status_utils.py,
lines 483-500): membership of the app id in the tester's app list; `False`
on any raised error. -/
def check_tester_app_association (env : ApiEnv) (tester_id app_id : String) : Bool :=
  match env.getTesterApps tester_id with
  | .error _ => false
  | .ok apps => decide (app_id ∈ apps.map AppResource.id)

/-- The per-email loop of `StatusChecker.check_invitation_status`
(status_utils.py, lines 388-435): for each email exactly one
`InvitationStatus` is appended — `invited` or `exists_not_invited` when the
tester exists, `not_invited` otherwise. -/
def invitationStatusLoop (env : ApiEnv) (app_id : String) :
    List String → List InvitationStatus
  | [] => []
  | email :: rest =>
    let st : InvitationStatus :=
      match find_tester_by_email env email with
      | some t =>
        ⟨email, some t.id,
         if check_tester_app_association env t.id app_id then "invited"
         else "exists_not_invited", app_id⟩
      | none => ⟨email, none, "not_invited", app_id⟩
    st :: invitationStatusLoop env app_id rest

/-- Embeds `StatusChecker.check_invitation_status` (status_utils.py, lines 367-450):
resolve the app id when absent (a failure there propagates), then produce one
status per email, in input order. -/
def check_invitation_status (env : ApiEnv) (emails : List String)
    (app_id : Option String) (bundle_id : String) :
    Except APIError (List InvitationStatus) :=
  match (match app_id with
         | some a => Except.ok a
         | none => get_app_id env bundle_id) with
  | .error e => .error e
  | .ok aid => .ok (invitationStatusLoop env aid emails)

end StatusUtils

namespace AppStore

/-! Concrete environments for closed evaluations. -/

/-- An environment where every endpoint succeeds: one app, one fully
processed build (state `VALID`), one existing tester. -/
def happyEnv : ApiEnv where
  getApps := fun _ => .ok [⟨"app1", "com.leavn.app", "Leavn"⟩]
  getBuilds := fun _ => .ok [⟨"build1", "1.0", "42", "VALID", "2024-01-01T00:00:00Z"⟩]
  getBetaTesters := fun _ => .ok [⟨"tester1", "t@example.com", "Test", "User"⟩]
  postBetaTester := fun e f l => .ok ⟨"tester-new", e, f, l⟩
  postTesterAppRel := fun _ _ => .ok ()
  postBuildTesterRel := fun _ _ => .ok ()
  getBuildById := fun _ => .ok ⟨"build1", "1.0", "42", "VALID", "2024-01-01T00:00:00Z"⟩
  getTesterApps := fun _ => .ok [⟨"app1", "com.leavn.app", "Leavn"⟩]

/-- A latest build in the not-ready state `UPLOADING` (neither ready nor
`PROCESSING`), with the build-association endpoint failing with a 500. -/
def envPendingUpload : ApiEnv :=
  { happyEnv with
    getBuilds := fun _ => .ok [⟨"build1", "1.0", "42", "UPLOADING", "2024-01-01T00:00:00Z"⟩]
    postBuildTesterRel := fun _ _ => .error ⟨"boom", some 500⟩ }

/-- A latest build still in state `PROCESSING`, everything else succeeding. -/
def envProcessing : ApiEnv :=
  { happyEnv with
    getBuilds := fun _ => .ok [⟨"build1", "1.0", "42", "PROCESSING", "2024-01-01T00:00:00Z"⟩] }

/-- Both association endpoints answer with the 409 error `_make_request`
raises after exhausting retries on duplicate edges. -/
def envDuplicate : ApiEnv :=
  { happyEnv with
    postTesterAppRel := fun _ _ => .error ⟨"Request failed with status 409", some 409⟩
    postBuildTesterRel := fun _ _ => .error ⟨"Request failed with status 409", some 409⟩ }

/-- A latest build in state `PROCESSING_COMPLETE` (ready per the
StatusChecker rule). -/
def envComplete : ApiEnv :=
  { happyEnv with
    getBuilds := fun _ =>
      .ok [⟨"build1", "1.0", "42", "PROCESSING_COMPLETE", "2024-01-01T00:00:00Z"⟩] }

/-- The tester lookup endpoint is down (500), tester creation also fails. -/
def envLookupDown : ApiEnv :=
  { happyEnv with
    getBetaTesters := fun _ => .error ⟨"lookup unavailable", some 500⟩
    postBetaTester := fun _ _ _ => .error ⟨"create rejected", some 500⟩ }

/-- Helper for the all-409 request schedule: every attempt of
`makeRequestAux` on a constant-409 oracle takes the generic retryable
branch, so the outcome is the 409 error after `remaining` generic-backoff
sleeps. -/
theorem makeRequestAux_const409 {β : Type} (cfg : RetryConfig) (endpoint : String)
    (b : β) (d : String) :
    ∀ remaining attempt,
      makeRequestAux cfg endpoint (fun _ => .reply 409 b d) remaining attempt =
        (.error ⟨"Request failed with status 409", some 409⟩,
          (List.range' attempt remaining).map (genericDelay cfg)) := by
  intro remaining
  induction remaining with
  | zero => intro attempt; rfl
  | succ n ih =>
    intro attempt
    have step : makeRequestAux cfg endpoint (fun _ => .reply 409 b d) (n + 1) attempt =
        ((makeRequestAux cfg endpoint (fun _ => .reply 409 b d) n (attempt + 1)).1,
          genericDelay cfg attempt ::
            (makeRequestAux cfg endpoint (fun _ => .reply 409 b d) n (attempt + 1)).2) := rfl
    rw [step, ih (attempt + 1)]
    simp [List.range'_succ]

/-- C2: for every attempt number k below the configured maximum number of
retries, the delay applied after a 429 response is
`min(base_delay * 2^k * 2, max_delay)`, and with the configuration the
client uses (base 1s, cap 60s, 3 retries) it is at least double the generic
retryable delay `min(base_delay * 2^k, max_delay)` at the same attempt. -/
theorem rate_limit_delay_doubles_generic (k : Nat)
    (hk : k < defaultRetryConfig.max_retries) :
    rateLimitDelay defaultRetryConfig k =
      min (defaultRetryConfig.base_delay * 2 ^ k * 2) defaultRetryConfig.max_delay ∧
    2 * genericDelay defaultRetryConfig k ≤ rateLimitDelay defaultRetryConfig k := by
  refine ⟨rfl, ?_⟩
  have hk3 : k < 3 := hk
  interval_cases k <;>
    norm_num [genericDelay, rateLimitDelay, defaultRetryConfig]

/-- Witness for C2 at attempt k = 1. -/
theorem rate_limit_delay_doubles_generic_witness :
    rateLimitDelay defaultRetryConfig 1 =
      min (defaultRetryConfig.base_delay * 2 ^ 1 * 2) defaultRetryConfig.max_delay ∧
    2 * genericDelay defaultRetryConfig 1 ≤ rateLimitDelay defaultRetryConfig 1 :=
  rate_limit_delay_doubles_generic 1 (by decide)

/-- C3 counterexample: a 204 response is in the 2xx range, yet the pipeline
does not return its body — it classifies 204 as a generic retryable failure,
sleeps `max_retries` times and raises a status-204 error. -/
theorem make_request_204_retried_counterexample :
    (makeRequest defaultRetryConfig "/builds" (fun _ => .reply 204 (0 : Nat) "")).1 =
      .error ⟨"Request failed with status 204", some 204⟩ ∧
    (makeRequest defaultRetryConfig "/builds" (fun _ => .reply 204 (0 : Nat) "")).2.length =
      defaultRetryConfig.max_retries :=
  ⟨rfl, rfl⟩

/-- C3 amended: only responses with status exactly 200 or 201 make
`_make_request` return the decoded body at once (no sleeps, no further
attempts); any other status — 2xx included — takes an error branch. -/
theorem make_request_200_201_returns_body {β : Type} (cfg : RetryConfig)
    (endpoint : String) (oracle : Nat → HttpAttempt β) (s : Nat) (b : β) (d : String)
    (hs : s = 200 ∨ s = 201) (h0 : oracle 0 = .reply s b d) :
    makeRequest cfg endpoint oracle = (.ok b, []) := by
  rcases hs with h | h <;> subst h <;>
    cases hmr : cfg.max_retries <;>
      simp [makeRequest, makeRequestAux, hmr, h0]

/-- Witness for the C3 amended theorem at a concrete 200 response. -/
theorem make_request_200_201_returns_body_witness :
    makeRequest defaultRetryConfig "/apps" (fun _ => .reply 200 (7 : Nat) "") =
      (.ok 7, []) :=
  make_request_200_201_returns_body defaultRetryConfig "/apps"
    (fun _ => .reply 200 (7 : Nat) "") 200 7 "" (Or.inl rfl) rfl

/-- C9: when every attempt of an association request receives HTTP 409, the
pipeline treats 409 as a generic retryable error — it sleeps the generic
backoff schedule `max_retries` times and only then raises an error carrying
status 409 — and it is that final raised error that `_add_tester_to_app`
absorbs as success; the duplicate is not recognized on the first response. -/
theorem conflict_409_retried_then_absorbed {β : Type} (cfg : RetryConfig)
    (endpoint : String) (b : β) (d : String) (env : ApiEnv) (tid aid : String)
    (habs : env.postTesterAppRel tid aid =
      .error ⟨"Request failed with status 409", some 409⟩) :
    makeRequest cfg endpoint (fun _ => .reply 409 b d) =
      (.error ⟨"Request failed with status 409", some 409⟩,
        (List.range cfg.max_retries).map (genericDelay cfg)) ∧
    add_tester_to_app env tid aid = .ok () := by
  constructor
  · rw [makeRequest, makeRequestAux_const409]
    rw [List.range_eq_range']
  · simp [add_tester_to_app, habs]

/-- Witness for C9: the default configuration against the duplicate
environment. -/
theorem conflict_409_retried_then_absorbed_witness :
    makeRequest defaultRetryConfig "/betaTesters/tester1/relationships/apps"
        (fun _ => .reply 409 (0 : Nat) "") =
      (.error ⟨"Request failed with status 409", some 409⟩,
        (List.range defaultRetryConfig.max_retries).map (genericDelay defaultRetryConfig)) ∧
    add_tester_to_app envDuplicate "tester1" "app1" = .ok () :=
  conflict_409_retried_then_absorbed defaultRetryConfig
    "/betaTesters/tester1/relationships/apps" (0 : Nat) "" envDuplicate
    "tester1" "app1" rfl

/-- C1 counterexample: with the latest build in the not-ready state
`UPLOADING`, `invite_tester` does not stop at a non-error "pending build"
status — it attempts the tester↔build association anyway (the association
endpoint's 500 error surfaces as the outcome), because the skip guard tests
`processing_state == 'PROCESSING'`, not readiness. -/
theorem invite_tester_pending_build_counterexample :
    invite_tester envPendingUpload "t@example.com" "Test" "User"
        (some "app1") "com.leavn.app" =
      .error ⟨"boom", some 500⟩ := rfl

/-- C1 amended: the tester↔build association is skipped exactly when the
latest build's processing state is the literal `PROCESSING` (regardless of
the association endpoint); for every other state — ready or not — it is
attempted; and a successful run always reports the plain `invited` status,
never a distinct "pending build" status. -/
theorem invite_tester_processing_guard (env : ApiEnv)
    (f : String → String → Except APIError Unit) (tid : String) (lb : BuildInfo)
    (email fn ln bundle_id : String) (aid : Option String) (r : InviteResult) :
    (lb.processing_state = "PROCESSING" →
      build_association_step env tid lb = .ok () ∧
      build_association_step { env with postBuildTesterRel := f } tid lb = .ok ()) ∧
    (lb.processing_state ≠ "PROCESSING" →
      build_association_step env tid lb = add_tester_to_build env tid lb.id) ∧
    (invite_tester env email fn ln aid bundle_id = .ok r → r.status = "invited") := by
  refine ⟨fun h => ⟨?_, ?_⟩, fun h => ?_, fun h => ?_⟩
  · simp [build_association_step, h]
  · simp [build_association_step, h]
  · simp [build_association_step, h]
  · unfold invite_tester at h
    repeat' split at h
    all_goals injection h
    all_goals subst_vars
    all_goals rfl

/-- Witness for the C1 amended theorem: a `PROCESSING` build is skipped and
the concrete successful run carries status `invited`. -/
theorem invite_tester_processing_guard_witness :
    build_association_step envProcessing "tester1"
        ⟨"build1", "1.0", "42", "PROCESSING", "2024-01-01T00:00:00Z"⟩ = .ok () ∧
    InviteResult.status
        ⟨"tester1", "t@example.com", "invited", "app1", "build1", "1.0"⟩ = "invited" :=
  ⟨((invite_tester_processing_guard envProcessing (fun _ _ => .ok ()) "tester1"
      ⟨"build1", "1.0", "42", "PROCESSING", "2024-01-01T00:00:00Z"⟩
      "t@example.com" "Test" "User" "com.leavn.app" (some "app1")
      ⟨"tester1", "t@example.com", "invited", "app1", "build1", "1.0"⟩).1 rfl).1,
   (invite_tester_processing_guard envProcessing (fun _ _ => .ok ()) "tester1"
      ⟨"build1", "1.0", "42", "PROCESSING", "2024-01-01T00:00:00Z"⟩
      "t@example.com" "Test" "User" "com.leavn.app" (some "app1")
      ⟨"tester1", "t@example.com", "invited", "app1", "build1", "1.0"⟩).2.2 rfl⟩

/-- C4: duplication alone never fails a provisioning run.  If the tester is
already known (the lookup returns it first) and both association endpoints
answer with errors carrying status 409 — the duplicate-edge signal — both
helpers absorb the 409 and the workflow completes with the success status,
whatever the build's processing state. -/
theorem duplicate_association_never_fails (env : ApiEnv)
    (email fn ln app_id bundle_id : String) (t : TesterResource)
    (ts : List TesterResource) (b : BuildResource) (bs : List BuildResource)
    (e1 e2 : APIError)
    (hfind : env.getBetaTesters email = .ok (t :: ts))
    (happ : env.postTesterAppRel t.id app_id = .error e1)
    (h1 : e1.status_code = some 409)
    (hbuilds : env.getBuilds app_id = .ok (b :: bs))
    (hbuild : env.postBuildTesterRel t.id b.id = .error e2)
    (h2 : e2.status_code = some 409) :
    invite_tester env email fn ln (some app_id) bundle_id =
      .ok ⟨t.id, email, "invited", app_id, b.id, b.version⟩ := by
  by_cases hp : b.processingState = "PROCESSING" <;>
    simp [invite_tester, find_existing_tester, add_tester_to_app, get_latest_build,
      build_association_step, add_tester_to_build, hfind, happ, hbuilds, hbuild,
      h1, h2, hp]

/-- Witness for C4: both association endpoints return 409 and the run still
succeeds with status `invited`. -/
theorem duplicate_association_never_fails_witness :
    invite_tester envDuplicate "t@example.com" "Test" "User"
        (some "app1") "com.leavn.app" =
      .ok ⟨"tester1", "t@example.com", "invited", "app1", "build1", "1.0"⟩ :=
  duplicate_association_never_fails envDuplicate "t@example.com" "Test" "User"
    "app1" "com.leavn.app" ⟨"tester1", "t@example.com", "Test", "User"⟩ []
    ⟨"build1", "1.0", "42", "VALID", "2024-01-01T00:00:00Z"⟩ []
    ⟨"Request failed with status 409", some 409⟩
    ⟨"Request failed with status 409", some 409⟩
    rfl rfl rfl rfl rfl rfl

/-- C10: when the tester lookup raises, `_find_existing_tester` swallows the
error and returns `None`, so `invite_tester` behaves exactly as if the
lookup had found nobody — it proceeds down the tester-creation path instead
of reporting the lookup failure. -/
theorem lookup_error_routes_to_creation (env : ApiEnv)
    (email fn ln bundle_id : String) (aid : Option String) (e : APIError)
    (h : env.getBetaTesters email = .error e) :
    find_existing_tester env email = none ∧
    invite_tester env email fn ln aid bundle_id =
      invite_tester { env with getBetaTesters := fun _ => .ok [] }
        email fn ln aid bundle_id := by
  constructor
  · simp [find_existing_tester, h]
  · simp [invite_tester, find_existing_tester, get_app_id, add_tester_to_app,
      get_latest_build, build_association_step, add_tester_to_build, h]

/-- Witness for C10: a concrete environment whose tester lookup is down. -/
theorem lookup_error_routes_to_creation_witness :
    find_existing_tester envLookupDown "t@example.com" = none ∧
    invite_tester envLookupDown "t@example.com" "Test" "User"
        (some "app1") "com.leavn.app" =
      invite_tester { envLookupDown with getBetaTesters := fun _ => .ok [] }
        "t@example.com" "Test" "User" (some "app1") "com.leavn.app" :=
  lookup_error_routes_to_creation envLookupDown "t@example.com" "Test" "User"
    "com.leavn.app" (some "app1") ⟨"lookup unavailable", some 500⟩ rfl

/-- Helper for C6: the cache-hit branch of `generate_jwt_token` — a cached
token whose recorded expiry is more than 60 seconds after `now` is returned
unchanged, with the state untouched. -/
theorem generate_jwt_token_cached (cred : Credentials) (st : TokenState) (now : ℚ)
    (t : JWT) (e : ℚ) (h1 : st.current_token = some t)
    (h2 : st.token_expires_at = some e) (h3 : now < e - 60) :
    generate_jwt_token cred now st = (t, st) := by
  unfold generate_jwt_token
  rw [h1, h2]
  simp [h3]

/-- Helper for C6: whenever the cache-hit condition fails, `generate_jwt_token`
signs a fresh token. -/
theorem generate_jwt_token_stale (cred : Credentials) (st : TokenState) (now : ℚ)
    (h : ¬ ∃ t e, st.current_token = some t ∧ st.token_expires_at = some e ∧
      now < e - 60) :
    generate_jwt_token cred now st = freshToken cred now := by
  unfold generate_jwt_token
  rcases h1 : st.current_token with _ | t
  · rfl
  · rcases h2 : st.token_expires_at with _ | e
    · rfl
    · have h3 : ¬ now < e - 60 := fun hlt => h ⟨t, e, h1, h2, hlt⟩
      simp [h3]

/-- C6: on every call of the token accessor — assuming the cache is coherent
(cached token's expiry field matches the cached expiry, which the writer
guarantees) — a cached token whose expiry is more than 60 seconds away is
returned unchanged; the returned token always expires more than 60 seconds
after `now`; coherence is preserved; and two calls inside the same validity
window return the identical token (no re-signing). -/
theorem generate_jwt_token_cache_spec (cred : Credentials) (st : TokenState)
    (now now2 : ℚ) (hco : st.coherent) :
    (∀ t e, st.current_token = some t → st.token_expires_at = some e →
      now < e - 60 → generate_jwt_token cred now st = (t, st)) ∧
    now + 60 < (generate_jwt_token cred now st).1.exp ∧
    (generate_jwt_token cred now st).2.coherent ∧
    (∀ t e, st.current_token = some t → st.token_expires_at = some e →
      now < e - 60 → now2 < e - 60 →
      (generate_jwt_token cred now2 (generate_jwt_token cred now st).2).1 =
        (generate_jwt_token cred now st).1) := by
  refine ⟨fun t e h1 h2 h3 => generate_jwt_token_cached cred st now t e h1 h2 h3,
    ?_, ?_, ?_⟩
  · by_cases hcv : ∃ t e, st.current_token = some t ∧ st.token_expires_at = some e ∧
        now < e - 60
    · rcases hcv with ⟨t, e, h1, h2, h3⟩
      rw [generate_jwt_token_cached cred st now t e h1 h2 h3]
      have hx := hco t e h1 h2
      simp only [hx]
      linarith
    · rw [generate_jwt_token_stale cred st now hcv]
      unfold freshToken TOKEN_EXPIRY_MINUTES
      norm_num
  · by_cases hcv : ∃ t e, st.current_token = some t ∧ st.token_expires_at = some e ∧
        now < e - 60
    · rcases hcv with ⟨t, e, h1, h2, h3⟩
      rw [generate_jwt_token_cached cred st now t e h1 h2 h3]
      exact hco
    · rw [generate_jwt_token_stale cred st now hcv]
      intro t e h1 h2
      simp [freshToken] at h1 h2
      rw [← h1, ← h2]
  · intro t e h1 h2 h3 h4
    rw [generate_jwt_token_cached cred st now t e h1 h2 h3]
    show (generate_jwt_token cred now2 st).1 = t
    rw [generate_jwt_token_cached cred st now2 t e h1 h2 h4]

/-- Witness for C6: a coherent cache holding a token expiring at t = 1300,
queried at time 0 — well outside the 60-second guard band. -/
theorem generate_jwt_token_cache_spec_witness :
    generate_jwt_token ⟨"KEY1", "ISS1"⟩ 0
        ⟨some ⟨"ISS1", 1300, "appstoreconnect-v1", "KEY1"⟩, some 1300⟩ =
      (⟨"ISS1", 1300, "appstoreconnect-v1", "KEY1"⟩,
        ⟨some ⟨"ISS1", 1300, "appstoreconnect-v1", "KEY1"⟩, some 1300⟩) ∧
    (0 : ℚ) + 60 < (generate_jwt_token ⟨"KEY1", "ISS1"⟩ 0
        ⟨some ⟨"ISS1", 1300, "appstoreconnect-v1", "KEY1"⟩, some 1300⟩).1.exp := by
  have hco : TokenState.coherent
      ⟨some ⟨"ISS1", 1300, "appstoreconnect-v1", "KEY1"⟩, some 1300⟩ := by
    intro t e h1 h2
    injection h1 with h1
    injection h2 with h2
    subst h1
    subst h2
    rfl
  have hs := generate_jwt_token_cache_spec ⟨"KEY1", "ISS1"⟩
    ⟨some ⟨"ISS1", 1300, "appstoreconnect-v1", "KEY1"⟩, some 1300⟩ 0 17 hco
  exact ⟨hs.1 ⟨"ISS1", 1300, "appstoreconnect-v1", "KEY1"⟩ 1300 rfl rfl (by norm_num),
    hs.2.1⟩

/-- Helper for C7: the per-tester loop puts each entry in exactly one bucket,
so the bucket sizes always sum to the number of entries. -/
theorem inviteTestersLoop_length (env : ApiEnv) (bundle_id : String)
    (aid : String) (ts : List TesterEntry) :
    (inviteTestersLoop env aid bundle_id ts).1.length +
      (inviteTestersLoop env aid bundle_id ts).2.1.length +
      (inviteTestersLoop env aid bundle_id ts).2.2.length = ts.length := by
  induction ts with
  | nil => rfl
  | cons t rest ih =>
    simp only [inviteTestersLoop]
    cases hr : invite_tester env t.email t.first_name t.last_name (some aid) bundle_id with
    | ok r =>
      simp only [List.length_cons]
      omega
    | error e =>
      by_cases hm : mentionsAlreadyExists e.message <;> simp [hm] <;> omega

/-- C7: in every completed batch run, each entry is counted in exactly one of
the successful / failed / already-invited buckets, so the bucket sizes sum to
the number of entries, which is also the recorded `total`. -/
theorem batch_buckets_partition (env : ApiEnv) (testers : List TesterEntry)
    (app_id : Option String) (bundle_id : String) (res : BatchResults)
    (h : invite_multiple_testers env testers app_id bundle_id = .ok res) :
    res.successful.length + res.failed.length + res.already_invited.length =
      testers.length ∧
    res.total = testers.length := by
  unfold invite_multiple_testers at h
  repeat' split at h
  all_goals injection h
  all_goals subst_vars
  exact ⟨inviteTestersLoop_length env bundle_id _ testers, rfl⟩

/-- Witness for C7: a two-entry batch against the all-success environment. -/
theorem batch_buckets_partition_witness :
    (⟨[("a@x.com", "tester1"), ("b@x.com", "tester1")], [], [], 2⟩ :
        BatchResults).successful.length +
      (⟨[("a@x.com", "tester1"), ("b@x.com", "tester1")], [], [], 2⟩ :
        BatchResults).failed.length +
      (⟨[("a@x.com", "tester1"), ("b@x.com", "tester1")], [], [], 2⟩ :
        BatchResults).already_invited.length =
      ([⟨"a@x.com", "A", "B"⟩, ⟨"b@x.com", "C", "D"⟩] : List TesterEntry).length ∧
    (⟨[("a@x.com", "tester1"), ("b@x.com", "tester1")], [], [], 2⟩ :
        BatchResults).total =
      ([⟨"a@x.com", "A", "B"⟩, ⟨"b@x.com", "C", "D"⟩] : List TesterEntry).length :=
  batch_buckets_partition happyEnv [⟨"a@x.com", "A", "B"⟩, ⟨"b@x.com", "C", "D"⟩]
    (some "app1") "com.leavn.app"
    ⟨[("a@x.com", "tester1"), ("b@x.com", "tester1")], [], [], 2⟩ rfl

end AppStore

namespace StatusUtils

open AppStore

/-- C5 counterexample: for the same remote state — latest build in
`PROCESSING_COMPLETE` — the StatusChecker classifies the build as ready
(`is_ready = true`), while the standalone `check_build_status` of
app_store_api reports `False`, because it tests
`processing_state == 'READY_FOR_TESTING'` instead of membership in
{PROCESSING_COMPLETE, READY_FOR_BETA_TESTING}.  The readiness rule is
therefore not uniform across the program. -/
theorem build_ready_not_uniform_counterexample :
    check_build_status envComplete none "com.leavn.app" none =
      .ok ⟨"build1", "1.0", "42", "PROCESSING_COMPLETE",
        "2024-01-01T00:00:00Z", true⟩ ∧
    AppStore.check_build_status envComplete "com.leavn.app" = false :=
  ⟨rfl, rfl⟩

/-- C5 amended: the StatusChecker's readiness decision is
`state ∈ {PROCESSING_COMPLETE, READY_FOR_BETA_TESTING}`, and every
`BuildStatus` it returns carries exactly that rule; the standalone
`check_build_status` of app_store_api instead reports ready iff the latest
build's state equals `READY_FOR_TESTING`. -/
theorem build_ready_deciders (env : ApiEnv) (aid bid2 : Option String)
    (bid s : String) :
    (is_ready_rule s = true ↔
      s = "PROCESSING_COMPLETE" ∨ s = "READY_FOR_BETA_TESTING") ∧
    (∀ res, check_build_status env aid bid bid2 = .ok res →
      res.is_ready = is_ready_rule res.processing_state) ∧
    (∀ app_id b bs, AppStore.get_app_id env bid = .ok app_id →
      env.getBuilds app_id = .ok (b :: bs) →
      (AppStore.check_build_status env bid = true ↔
        b.processingState = "READY_FOR_TESTING")) := by
  refine ⟨?_, ?_, ?_⟩
  · simp [is_ready_rule]
  · intro res h
    unfold check_build_status at h
    repeat' split at h
    all_goals injection h
    all_goals subst_vars
    all_goals rfl
  · intro app_id b bs h1 h2
    simp [AppStore.check_build_status, h1, AppStore.get_latest_build, h2]

/-- Witness for the C5 amended theorem at the `PROCESSING_COMPLETE`
environment. -/
theorem build_ready_deciders_witness :
    (is_ready_rule "PROCESSING_COMPLETE" = true ↔
      "PROCESSING_COMPLETE" = "PROCESSING_COMPLETE" ∨
      "PROCESSING_COMPLETE" = "READY_FOR_BETA_TESTING") ∧
    BuildStatus.is_ready
        ⟨"build1", "1.0", "42", "PROCESSING_COMPLETE",
          "2024-01-01T00:00:00Z", true⟩ =
      is_ready_rule "PROCESSING_COMPLETE" ∧
    (AppStore.check_build_status envComplete "com.leavn.app" = true ↔
      "PROCESSING_COMPLETE" = "READY_FOR_TESTING") :=
  ⟨(build_ready_deciders envComplete none none "com.leavn.app"
      "PROCESSING_COMPLETE").1,
   (build_ready_deciders envComplete none none "com.leavn.app"
      "PROCESSING_COMPLETE").2.1
      ⟨"build1", "1.0", "42", "PROCESSING_COMPLETE",
        "2024-01-01T00:00:00Z", true⟩ rfl,
   (build_ready_deciders envComplete none none "com.leavn.app"
      "PROCESSING_COMPLETE").2.2 "app1"
      ⟨"build1", "1.0", "42", "PROCESSING_COMPLETE", "2024-01-01T00:00:00Z"⟩
      [] rfl rfl⟩

/-- Helper for C8: the status-check loop emits exactly one status per input
email, in input order. -/
theorem invitationStatusLoop_emails (env : ApiEnv) (aid : String)
    (es : List String) :
    (invitationStatusLoop env aid es).map InvitationStatus.email = es := by
  induction es with
  | nil => rfl
  | cons email rest ih =>
    simp only [invitationStatusLoop]
    cases hf : find_tester_by_email env email <;> simp [hf, ih]

/-- C8: batch status checking preserves input order in the outcome list —
the i-th outcome carries the same email as the i-th input entry. -/
theorem check_invitation_status_preserves_order (env : ApiEnv)
    (emails : List String) (app_id : Option String) (bundle_id : String)
    (res : List InvitationStatus)
    (h : check_invitation_status env emails app_id bundle_id = .ok res) :
    res.map InvitationStatus.email = emails := by
  unfold check_invitation_status at h
  repeat' split at h
  all_goals injection h
  all_goals subst_vars
  exact invitationStatusLoop_emails env _ emails

/-- Witness for C8: two emails against the all-success environment. -/
theorem check_invitation_status_preserves_order_witness :
    ([⟨"a@x.com", some "tester1", "invited", "app1"⟩,
      ⟨"b@x.com", some "tester1", "invited", "app1"⟩] :
        List InvitationStatus).map InvitationStatus.email =
      ["a@x.com", "b@x.com"] :=
  check_invitation_status_preserves_order happyEnv ["a@x.com", "b@x.com"]
    (some "app1") "com.leavn.app"
    [⟨"a@x.com", some "tester1", "invited", "app1"⟩,
     ⟨"b@x.com", some "tester1", "invited", "app1"⟩] rfl

end StatusUtils
